import Mathlib

/-!
Shallow embedding of the reminder scheduling and idempotent delivery core of
the jakesbot repository.

Sources embedded:
- `jarvis/tools/reminder_tool.py`: `parse_reminder_time`, `ReminderTool.create_reminder`,
  `ReminderTool.update_reminder`;
- `jarvis/tasks.py`: `send_reminder_task`;
- `jarvis/utils/twilio_calling.py`: `send_call_reminder`;
- `telegram_bot/tasks.py`: `check_due_reminders` (loop body, per reminder);
- `jarvis/models.py`: the `Reminder` model.

Modelling conventions:
- Instants are whole minutes since an arbitrary epoch, in UTC (`Int`).  Every
  duration the embedded code manipulates is a whole number of minutes.  The
  display and parsing timezone hard-coded in the source, Africa/Lagos, is
  UTC+01:00 with no daylight saving, so localisation is addition of 60 minutes
  and a calendar day is the half-open 1440-minute block of the local timeline.
- The external Django helper `django.utils.dateparse.parse_datetime` is a
  collaborator outside this repository; its acceptance condition is modelled
  from its `datetime_re` regular expression, and the instant it yields for an
  accepted string is abstracted as an explicit function argument `isoVal`
  (none of the verified claims depends on that value).  Calendar-range
  rejections of the external parser (e.g. month 13) are not modelled.
- The external Twilio call `send_call_reminder` catches every exception and
  returns a string in all cases; it is modelled as a total function of the
  call outcome.
- Celery side effects (queued jobs, call placement, telegram sends, audio file
  deletion) are recorded in explicit effect records.
-/

namespace Jakesbot

/-- Characters matched by Python's whitespace class and removed by `str.strip`. -/
def pySpace (c : Char) : Bool :=
  c = ' ' || c = '\t' || c = '\n' || c = '\r' || c = '\x0b' || c = '\x0c'

def isDigitCh (c : Char) : Bool :=
  48 ≤ c.toNat && c.toNat ≤ 57

def digitVal (c : Char) : Nat :=
  c.toNat - '0'.toNat

def natOfDigits (ds : List Char) : Nat :=
  ds.foldl (fun a c => 10 * a + digitVal c) 0

/-- Python `str.strip()`: drop leading and trailing whitespace. -/
def pyStrip (cs : List Char) : List Char :=
  ((cs.dropWhile pySpace).reverse.dropWhile pySpace).reverse

/-- Consume one or more whitespace characters, as the regex fragment `\s+`. -/
def skipSpaces1 : List Char → Option (List Char)
  | c :: r => if pySpace c then some (r.dropWhile pySpace) else none
  | [] => none

/-- Case-insensitive "starts with" against a lowercase pattern, as matching a
literal under `re.IGNORECASE`. -/
def startsWithCI : List Char → List Char → Bool
  | _, [] => true
  | [], _ :: _ => false
  | c :: cs, p :: ps => (c.toLower = p) && startsWithCI cs ps

inductive TimeUnit where
  | hour
  | minute
  | day
deriving DecidableEq, Repr

/-- Minutes in one unit, as produced by `timedelta(hours|minutes|days = value)`. -/
def unitMinutes : TimeUnit → Int
  | .hour => 60
  | .minute => 1
  | .day => 1440

/-- The relative pattern of `parse_reminder_time`:
`re.match(r'^in\s+(\d+)\s+(hours?|minutes?|days?)', time_input, re.IGNORECASE)`.
Returns the captured value and the unit the matched alternative denotes
(the source only tests `unit.lower().startswith(...)`, which the alternative
determines). -/
def matchRelative (cs : List Char) : Option (Nat × TimeUnit) :=
  match cs with
  | c0 :: c1 :: rest =>
    if c0.toLower = 'i' && c1.toLower = 'n' then
      match skipSpaces1 rest with
      | none => none
      | some r1 =>
        let p := r1.span isDigitCh
        if p.1.isEmpty then none
        else
          match skipSpaces1 p.2 with
          | none => none
          | some r3 =>
            if startsWithCI r3 ['h', 'o', 'u', 'r'] then some (natOfDigits p.1, .hour)
            else if startsWithCI r3 ['m', 'i', 'n', 'u', 't', 'e'] then
              some (natOfDigits p.1, .minute)
            else if startsWithCI r3 ['d', 'a', 'y'] then some (natOfDigits p.1, .day)
            else none
    else none
  | _ => none

/-- The fragment `(\d{1,2}):` of the absolute pattern: one or two digits
(greedily two, backtracking to one) followed by a literal colon. -/
def hourColon : List Char → Option (Nat × List Char)
  | d1 :: d2 :: c3 :: r =>
    if isDigitCh d1 then
      if isDigitCh d2 && c3 = ':' then some (10 * digitVal d1 + digitVal d2, r)
      else if d2 = ':' then some (digitVal d1, c3 :: r)
      else none
    else none
  | [d1, d2] => if isDigitCh d1 && d2 = ':' then some (digitVal d1, []) else none
  | _ => none

/-- The absolute pattern of `parse_reminder_time`:
`re.match(r'^at\s+(\d{1,2}):(\d{2})(?:\s*(am|pm|AM|PM))?', time_input)`
(no IGNORECASE flag; the pattern is unanchored at the right).  The result is
(hour, minute, period) with `some true` for PM and `some false` for AM. -/
def matchAbsolute (cs : List Char) : Option (Nat × Nat × Option Bool) :=
  match cs with
  | 'a' :: 't' :: rest =>
    match skipSpaces1 rest with
    | none => none
    | some r1 =>
      match hourColon r1 with
      | none => none
      | some (h, r2) =>
        match r2 with
        | m1 :: m2 :: r3 =>
          if isDigitCh m1 && isDigitCh m2 then
            let m := 10 * digitVal m1 + digitVal m2
            let r4 := r3.dropWhile pySpace
            let period : Option Bool :=
              match r4 with
              | 'a' :: 'm' :: _ => some false
              | 'A' :: 'M' :: _ => some false
              | 'p' :: 'm' :: _ => some true
              | 'P' :: 'M' :: _ => some true
              | _ => none
            some (h, m, period)
          else none
        | _ => none
  | _ => none

/-- One or two digits, greedily, followed by the continuation (regex `\d{1,2}`). -/
def d12 (next : List Char → Bool) : List Char → Bool
  | a :: b :: r =>
    if isDigitCh a then
      (if isDigitCh b then (next r || next (b :: r)) else next (b :: r))
    else false
  | [a] => isDigitCh a && next []
  | [] => false

/-- Tail of Django's `datetime_re`: `\s*(Z|[+-]\d{2}(?::?\d{2})?)?$`. -/
def tzEnd (cs : List Char) : Bool :=
  match cs.dropWhile pySpace with
  | [] => true
  | ['Z'] => true
  | s :: d1 :: d2 :: rest =>
    (s = '+' || s = '-') && isDigitCh d1 && isDigitCh d2 &&
      (match rest with
       | [] => true
       | [':', e1, e2] => isDigitCh e1 && isDigitCh e2
       | [e1, e2] => isDigitCh e1 && isDigitCh e2
       | _ => false)
  | _ => false

/-- After the `[.,]` separator: `\d{1,6}\d{0,6}` then the timezone tail. -/
def microPart (cs : List Char) : Bool :=
  let p := cs.span isDigitCh
  decide (1 ≤ p.1.length ∧ p.1.length ≤ 12) && tzEnd p.2

/-- Optional seconds group `(?::(\d{1,2})(?:[.,]micro)?)?` then the timezone tail. -/
def secPart (cs : List Char) : Bool :=
  (match cs with
   | ':' :: r =>
     d12 (fun r2 =>
       match r2 with
       | c :: r3 => if c = '.' || c = ',' then microPart r3 else tzEnd r2
       | [] => tzEnd []) r
   | _ => false)
  || tzEnd cs

def minutePart (cs : List Char) : Bool :=
  d12 secPart cs

/-- `[T ]` then `\d{1,2}:\d{1,2}` then the optional seconds and timezone tail. -/
def hmPart (cs : List Char) : Bool :=
  match cs with
  | c :: r =>
    (c = 'T' || c = ' ') &&
      d12 (fun r2 =>
        match r2 with
        | ':' :: r3 => minutePart r3
        | _ => false) r
  | [] => false

def dayPart (cs : List Char) : Bool :=
  d12 hmPart cs

def monthPart (cs : List Char) : Bool :=
  d12 (fun r =>
    match r with
    | '-' :: r2 => dayPart r2
    | _ => false) cs

/-- Acceptance condition of the external `django.utils.dateparse.parse_datetime`,
modelled from its `datetime_re`:
`(?P<year>\d{4})-(?P<month>\d{1,2})-(?P<day>\d{1,2})[T ](?P<hour>\d{1,2}):(?P<minute>\d{1,2})`
followed by optional seconds, microseconds and timezone, anchored at both ends. -/
def isoMatch (cs : List Char) : Bool :=
  match cs with
  | y1 :: y2 :: y3 :: y4 :: '-' :: r =>
    isDigitCh y1 && isDigitCh y2 && isDigitCh y3 && isDigitCh y4 && monthPart r
  | _ => false

inductive ParseOutcome where
  /-- A UTC instant was produced. -/
  | time (t : Int)
  /-- The `datetime` constructor rejected the field values (ValueError). -/
  | invalid
  /-- No grammar matched: `ValueError("Could not parse time: ...")`. -/
  | unrecognized
deriving DecidableEq, Repr

/-- The Africa/Lagos offset from UTC, in minutes (WAT, fixed, no DST). -/
def lagosOffset : Int := 60

/-- Minutes in a day. -/
def dayMinutes : Int := 1440

/-- `parse_reminder_time` from `jarvis/tools/reminder_tool.py`.  `isoVal`
abstracts the UTC instant the external Django parser yields for a string it
accepts.  `now` is `timezone.now()` in UTC minutes. -/
def parse_reminder_time (isoVal : String → Int) (input : String) (now : Int) :
    ParseOutcome :=
  let cs := pyStrip input.data
  if isoMatch cs then .time (isoVal (String.mk cs))
  else
    match matchRelative cs with
    | some (n, u) => .time (now + n * unitMinutes u)
    | none =>
      match matchAbsolute cs with
      | some (h0, m, period) =>
        let h :=
          if period = some true ∧ h0 ≠ 12 then h0 + 12
          else if period = some false ∧ h0 = 12 then 0
          else h0
        if h ≤ 23 ∧ m ≤ 59 then
          let nowLocal := now + lagosOffset
          let day := Int.fdiv nowLocal dayMinutes
          let utc := day * dayMinutes + (h : Int) * 60 + (m : Int) - lagosOffset
          .time (if utc ≤ now then utc + dayMinutes else utc)
        else .invalid
      | none => .unrecognized

/-- The `Reminder` model of `jarvis/models.py` (the fields the core reads and
writes; `id` is the identity of the record itself in this embedding). -/
structure Reminder where
  chat_id : String
  title : String
  time : Int
  created_at : Int
  is_triggered : Bool
  remind_before : Int
deriving DecidableEq, Repr

/-- Observable external side effects of one core operation. -/
structure Effects where
  /-- Invocations of `send_call_reminder` (the Twilio channel). -/
  calls : Nat
  /-- Invocations of `send_message_sync` (the Telegram channel). -/
  telegramMessages : Nat
  /-- Whether the audio artifact file was removed. -/
  audioDeleted : Bool
deriving DecidableEq, Repr

def Effects.zero : Effects := ⟨0, 0, false⟩

/-- Return values of `send_reminder_task`, keyed by the returned status dict. -/
inductive TaskStatus where
  /-- `{"status": "success", "before": b, "cleanup": c}` -/
  | success (before : Bool) (cleanup : Bool)
  /-- `{"status": "skipped", "reason": "already triggered", ...}` (lock-guarded check) -/
  | skippedAlreadyTriggered (before : Bool)
  /-- `{"status": "skipped", "reason": "already triggered post-call", ...}` (lost the CAS) -/
  | skippedAlreadyTriggeredPostCall (before : Bool)
  /-- `self.retry(countdown=2**retries)` was raised. -/
  | retryWithCountdown (countdown : Nat)
  /-- `{"status": "failed", ...}` after the retry ceiling. -/
  | failed
deriving DecidableEq, Repr

/-- Environment of one `send_reminder_task` execution: the outcomes of the
external collaborators it touches. -/
structure DeliverEnv where
  /-- `Reminder.objects.select_for_update().get(pk=...)` finds the row
  (otherwise the task body raises and enters the retry path). -/
  found : Bool
  /-- The Twilio call succeeds.  Either way `send_call_reminder` returns a
  string and never raises. -/
  twilioOk : Bool
  /-- `os.path.exists(audio_path)` -/
  audioExists : Bool
  /-- `os.remove(audio_path)` does not raise. -/
  deleteOk : Bool
  /-- `self.request.retries` -/
  retries : Nat
deriving DecidableEq, Repr

structure TaskResult where
  status : TaskStatus
  /-- The string returned by `send_call_reminder`, when the call was made. -/
  callResult : Option String
  effects : Effects
  /-- Whether this execution's conditional
  `filter(pk=..., is_triggered=False).update(is_triggered=True)` wrote the flag. -/
  casWrote : Bool
deriving DecidableEq, Repr

/-- `max_retries=3` on the `shared_task` decorator. -/
def maxRetries : Nat := 3

/-- `send_call_reminder` from `jarvis/utils/twilio_calling.py`.  Both `except`
clauses convert a failure into a returned string, so the function is total:
a failed call is reported only through the string it returns. -/
def send_call_reminder (twilioOk : Bool) : String :=
  if twilioOk then "📞 Call initiated! SID: CAxxxxxxxxxxxxxxxxxxxxxxxxxxxxxxxx"
  else "❌ Twilio Error: unable to create record"

/-- `send_reminder_task` from `jarvis/tasks.py`.  `flagAtLock` is the value of
`is_triggered` read under `select_for_update`; `flagAtCas` is its value at the
instant of the conditional update (in a sequential execution the two coincide,
but a concurrent worker may set the flag in between). -/
def send_reminder_task (flagAtLock flagAtCas : Bool) (before : Bool)
    (env : DeliverEnv) : TaskResult :=
  if ¬env.found then
    -- the `get` raised; caught by the outer `except`, which retries with
    -- countdown 2**retries while retries < max_retries, else returns failed
    if env.retries < maxRetries then
      ⟨.retryWithCountdown (2 ^ env.retries), none, Effects.zero, false⟩
    else ⟨.failed, none, Effects.zero, false⟩
  else if flagAtLock then
    ⟨.skippedAlreadyTriggered before, none, Effects.zero, false⟩
  else
    -- the call is placed outside the lock; its failure is swallowed inside
    -- send_call_reminder, so control flow does not depend on twilioOk
    let callRes := send_call_reminder env.twilioOk
    if before then ⟨.success true false, some callRes, ⟨1, 0, false⟩, false⟩
    else if flagAtCas then
      ⟨.skippedAlreadyTriggeredPostCall before, some callRes, ⟨1, 0, false⟩, false⟩
    else
      -- the CAS wrote true; then best-effort audio deletion
      let deleted := env.audioExists && env.deleteOk
      ⟨.success false true, some callRes, ⟨1, 0, deleted⟩, true⟩

/-- One sequential execution of `send_reminder_task` against the store: both
reads of `is_triggered` observe the current record, and the record afterwards
carries the flag the CAS wrote, if any. -/
def deliverStep (r : Reminder) (before : Bool) (env : DeliverEnv) :
    Reminder × TaskResult :=
  let res := send_reminder_task r.is_triggered r.is_triggered before env
  ({ r with is_triggered := r.is_triggered || res.casWrote }, res)

/-- The per-reminder action of `check_due_reminders` from `telegram_bot/tasks.py`:
the queryset filter `is_triggered=False, time <= now + 1 minute` decides whether
the reminder is processed; the loop body sends a Telegram message and, when the
send did not raise, assigns `is_triggered = True` and saves. -/
def check_due_reminders_step (now : Int) (sendOk : Bool) (r : Reminder) :
    Reminder × Effects :=
  if !r.is_triggered && r.time ≤ now + 1 then
    if sendOk then ({ r with is_triggered := true }, ⟨0, 1, false⟩)
    else (r, ⟨0, 1, false⟩)
  else (r, Effects.zero)

inductive ScheduleMode where
  /-- `send_reminder_task.apply_async((id, False), eta=time)` -/
  | eta (t : Int)
  /-- `send_reminder_task.delay(id, False)` -/
  | immediate
deriving DecidableEq, Repr

/-- One queued `send_reminder_task` invocation. -/
structure ScheduledJob where
  before : Bool
  mode : ScheduleMode
deriving DecidableEq, Repr

structure CreateResult where
  /-- The persisted record, when parsing succeeded. -/
  stored : Option Reminder
  /-- The `send_reminder_task` jobs queued by `create_reminder` (the TTS job
  queued by the `post_save` signal is an artifact job, not a delivery trigger). -/
  deliveryJobs : List ScheduledJob
deriving DecidableEq, Repr

/-- `ReminderTool.create_reminder` from `jarvis/tools/reminder_tool.py`.  The
`remind_before` argument is accepted but the record is created with
`remind_before=0` and only the final trigger is queued. -/
def create_reminder (isoVal : String → Int) (chat_id title time_iso : String)
    (remind_before : Int) (now : Int) : CreateResult :=
  match parse_reminder_time isoVal time_iso now with
  | .time t =>
    { stored := some
        { chat_id := chat_id, title := title, time := t, created_at := now
          is_triggered := false, remind_before := 0 }
      deliveryJobs := [⟨false, if t > now then .eta t else .immediate⟩] }
  | _ => { stored := none, deliveryJobs := [] }

/-- Python truthiness of the optional string arguments of `update_reminder`
(`if new_title:` is false for both `None` and the empty string). -/
def pyTruthy : Option String → Bool
  | none => false
  | some s => !s.isEmpty

inductive UpdateResult where
  /-- `Reminder.DoesNotExist`: the apology string is returned. -/
  | notFound
  /-- `parse_reminder_time` raised `ValueError`; the function returns before
  `reminder.save()`, so the store is untouched. -/
  | parseError
  /-- `reminder.save()` ran with this record. -/
  | updated (r : Reminder)
deriving DecidableEq, Repr

/-- `ReminderTool.update_reminder` from `jarvis/tools/reminder_tool.py`, acting
on the record the `get(id=..., chat_id=...)` lookup produced (`none` when the
lookup raised `DoesNotExist`).  The function never reads `is_triggered`. -/
def update_reminder (isoVal : String → Int) (found : Option Reminder)
    (new_title new_time_iso : Option String) (now : Int) : UpdateResult :=
  match found with
  | none => .notFound
  | some r =>
    let r1 := if pyTruthy new_title then { r with title := new_title.getD "" } else r
    if pyTruthy new_time_iso then
      match parse_reminder_time isoVal (new_time_iso.getD "") now with
      | .time t => .updated { r1 with time := t }
      | _ => .parseError
    else .updated r1

/-- The stored record after an `update_reminder` call addressed at `r`: the
saved record on success, the unchanged `r` when the call returned early. -/
def update_reminder_stored (isoVal : String → Int) (r : Reminder)
    (new_title new_time_iso : Option String) (now : Int) : Reminder :=
  match update_reminder isoVal (some r) new_title new_time_iso now with
  | .updated r' => r'
  | _ => r

/-- The operations of the core that act on an existing reminder record. -/
inductive CoreOp where
  | update (new_title new_time_iso : Option String) (now : Int)
  | deliver (before : Bool) (env : DeliverEnv)
  | sweep (now : Int) (sendOk : Bool)

def applyOp (isoVal : String → Int) (r : Reminder) : CoreOp → Reminder
  | .update nt nti now => update_reminder_stored isoVal r nt nti now
  | .deliver before env => (deliverStep r before env).1
  | .sweep now sendOk => (check_due_reminders_step now sendOk r).1

/-- Number of `false → true` transitions of `is_triggered` along a trace. -/
def countTransitions (isoVal : String → Int) (r : Reminder) :
    List CoreOp → Nat
  | [] => 0
  | op :: rest =>
    let r' := applyOp isoVal r op
    (if r.is_triggered = false ∧ r'.is_triggered = true then 1 else 0) +
      countTransitions isoVal r' rest

/-! ## Helper lemmas -/

lemma toLower_of_digit (c : Char) (h : isDigitCh c = true) : c.toLower = c := by
  simp only [isDigitCh, Bool.and_eq_true, decide_eq_true_eq] at h
  have hneg : ¬(Char.toNat c ≥ 65 ∧ Char.toNat c ≤ 90) := by omega
  simp [Char.toLower, hneg]

lemma not_digit_of_toLower_i (c : Char) (h : c.toLower = 'i') : isDigitCh c = false := by
  by_contra hc
  rw [Bool.not_eq_false] at hc
  rw [toLower_of_digit c hc] at h
  subst h
  exact absurd hc (by decide)

lemma isoMatch_head (c : Char) (cs : List Char) (h : isoMatch (c :: cs) = true) :
    isDigitCh c = true := by
  unfold isoMatch at h
  split at h
  · rename_i y1 y2 y3 y4 r heq
    injection heq with h1 _
    subst h1
    simp only [Bool.and_eq_true] at h
    exact h.1.1.1.1
  · exact absurd h (by simp)

lemma matchRelative_shape (cs : List Char) (x : Nat × TimeUnit)
    (h : matchRelative cs = some x) :
    ∃ c0 c1 rest, cs = c0 :: c1 :: rest ∧ c0.toLower = 'i' := by
  unfold matchRelative at h
  split at h
  · rename_i c0 c1 rest
    by_cases hc : (c0.toLower = 'i' && c1.toLower = 'n') = true
    · simp only [Bool.and_eq_true, decide_eq_true_eq] at hc
      exact ⟨c0, c1, rest, rfl, hc.1⟩
    · rw [if_neg hc] at h
      cases h
  · cases h

lemma isoMatch_false_of_relative (cs : List Char) (x : Nat × TimeUnit)
    (h : matchRelative cs = some x) : isoMatch cs = false := by
  obtain ⟨c0, c1, rest, rfl, hlow⟩ := matchRelative_shape cs x h
  by_contra hiso
  rw [Bool.not_eq_false] at hiso
  have hd := isoMatch_head _ _ hiso
  rw [not_digit_of_toLower_i _ hlow] at hd
  cases hd

lemma update_stored_flag (isoVal : String → Int) (r : Reminder)
    (nt nti : Option String) (now : Int) :
    (update_reminder_stored isoVal r nt nti now).is_triggered = r.is_triggered := by
  unfold update_reminder_stored update_reminder
  by_cases ht : pyTruthy nti = true
  · cases hp : parse_reminder_time isoVal (nti.getD "") now <;>
      by_cases hn : pyTruthy nt = true <;> simp [ht, hn, hp]
  · rw [Bool.not_eq_true] at ht
    by_cases hn : pyTruthy nt = true <;> simp [ht, hn]

lemma deliverStep_flag_mono (r : Reminder) (before : Bool) (env : DeliverEnv)
    (h : r.is_triggered = true) :
    ((deliverStep r before env).1).is_triggered = true := by
  unfold deliverStep
  simp [h]

lemma sweep_flag_mono (now : Int) (sendOk : Bool) (r : Reminder)
    (h : r.is_triggered = true) :
    ((check_due_reminders_step now sendOk r).1).is_triggered = true := by
  unfold check_due_reminders_step
  simp [h]

lemma applyOp_mono (isoVal : String → Int) (r : Reminder) (op : CoreOp)
    (h : r.is_triggered = true) : (applyOp isoVal r op).is_triggered = true := by
  cases op with
  | update nt nti now =>
    show (update_reminder_stored isoVal r nt nti now).is_triggered = true
    rw [update_stored_flag]
    exact h
  | deliver before env => exact deliverStep_flag_mono r before env h
  | sweep now sendOk => exact sweep_flag_mono now sendOk r h

lemma foldl_flag_mono (isoVal : String → Int) (ops : List CoreOp) :
    ∀ r : Reminder, r.is_triggered = true →
      (ops.foldl (applyOp isoVal) r).is_triggered = true := by
  induction ops with
  | nil => exact fun r h => h
  | cons op rest ih =>
    intro r h
    rw [List.foldl_cons]
    exact ih _ (applyOp_mono isoVal r op h)

lemma countTransitions_of_true (isoVal : String → Int) (ops : List CoreOp) :
    ∀ r : Reminder, r.is_triggered = true → countTransitions isoVal r ops = 0 := by
  induction ops with
  | nil => intro r _; rfl
  | cons op rest ih =>
    intro r h
    simp only [countTransitions]
    rw [ih _ (applyOp_mono isoVal r op h)]
    simp [h]

lemma countTransitions_le_one (isoVal : String → Int) (ops : List CoreOp) :
    ∀ r : Reminder, countTransitions isoVal r ops ≤ 1 := by
  induction ops with
  | nil => intro r; simp [countTransitions]
  | cons op rest ih =>
    intro r
    simp only [countTransitions]
    by_cases h : (applyOp isoVal r op).is_triggered = true
    · by_cases h0 : r.is_triggered = true
      · rw [countTransitions_of_true isoVal rest _ (applyOp_mono isoVal r op h0)]
        simp [h0]
      · rw [countTransitions_of_true isoVal rest _ h]
        rw [Bool.not_eq_true] at h0
        simp [h0, h]
    · rw [Bool.not_eq_true] at h
      have hz : (if r.is_triggered = false ∧ (applyOp isoVal r op).is_triggered = true
          then 1 else 0) = 0 := by simp [h]
      rw [hz, Nat.zero_add]
      exact ih _

/-! ## Claims -/

/-- Claim C8: for every input whose (stripped) text matches the relative
pattern `in <N> (hour|hours|minute|minutes|day|days)` (case-insensitive) and
every current instant `now`, `parse_reminder_time` returns exactly
`now + N` times the named unit. -/
theorem relative_parse_exact (isoVal : String → Int) (input : String) (now : Int)
    (n : Nat) (u : TimeUnit)
    (h : matchRelative (pyStrip input.data) = some (n, u)) :
    parse_reminder_time isoVal input now = .time (now + n * unitMinutes u) := by
  have hiso := isoMatch_false_of_relative _ _ h
  simp [parse_reminder_time, hiso, h]

theorem relative_parse_exact_witness :
    matchRelative (pyStrip "in 2 hours".data) = some (2, TimeUnit.hour)
    ∧ parse_reminder_time (fun _ => 0) "in 2 hours" 7 = .time 127 := by
  refine ⟨by decide, ?_⟩
  have h := relative_parse_exact (fun _ => 0) "in 2 hours" 7 2 .hour (by decide)
  simpa using h

/-- Claim C7 (code bug): the absolute-pattern regex of `parse_reminder_time`
demands a `:<MM>` component, so the input `"at 3 PM"` — listed as a supported
example in the function's own docstring and in the spec — matches nothing and
the function raises `ValueError` (`unrecognized`).  The colon form behaves as
the claim describes: with `now` = 2 PM Lagos time (13:00 UTC, minute 780 of
day 0) `"at 3:00 PM"` resolves to today 15:00 local = 14:00 UTC (minute 840),
and with `now` = 4 PM local (minute 900) it resolves to tomorrow
(minute 2280). -/
theorem at_three_pm_rejected :
    parse_reminder_time (fun _ => 0) "at 3 PM" 780 = .unrecognized
    ∧ parse_reminder_time (fun _ => 0) "at 3:00 PM" 780 = .time 840
    ∧ parse_reminder_time (fun _ => 0) "at 3:00 PM" 900 = .time 2280 := by
  refine ⟨by decide, by decide, by decide⟩

/-- Claim C9: when `create_reminder` succeeds it queues exactly one delivery
job: with ETA equal to the parsed time when that time is strictly after `now`,
and for immediate execution otherwise. -/
theorem create_schedules_single_job (isoVal : String → Int)
    (cid title tiso : String) (rb now : Int) (r : Reminder)
    (h : (create_reminder isoVal cid title tiso rb now).stored = some r) :
    (create_reminder isoVal cid title tiso rb now).deliveryJobs
      = [⟨false, if r.time > now then .eta r.time else .immediate⟩] := by
  unfold create_reminder at *
  split at h
  · rename_i t ht
    simp only [Option.some.injEq] at h
    subst h
    simp
  · cases h

theorem create_schedules_single_job_witness :
    (create_reminder (fun _ => 0) "c" "t" "in 2 hours" 0 7).stored
      = some ⟨"c", "t", 127, 7, false, 0⟩
    ∧ (create_reminder (fun _ => 0) "c" "t" "in 2 hours" 0 7).deliveryJobs
      = [⟨false, .eta 127⟩] := by
  refine ⟨by decide, ?_⟩
  have h := create_schedules_single_job (fun _ => 0) "c" "t" "in 2 hours" 0 7
    ⟨"c", "t", 127, 7, false, 0⟩ (by decide)
  simpa using h

/-- Claim C10: `create_reminder` ignores its `remind_before` argument — the
result is literally independent of it, every record it persists carries
`remind_before = 0`, and the only queued trigger is the single final delivery
job (its `before` flag is `false`). -/
theorem remind_before_ignored (isoVal : String → Int) (cid title tiso : String)
    (rb now : Int) :
    create_reminder isoVal cid title tiso rb now
      = create_reminder isoVal cid title tiso 0 now
    ∧ (∀ r, (create_reminder isoVal cid title tiso rb now).stored = some r →
        r.remind_before = 0 ∧ r.is_triggered = false)
    ∧ (∀ j ∈ (create_reminder isoVal cid title tiso rb now).deliveryJobs,
        j.before = false)
    ∧ (create_reminder isoVal cid title tiso rb now).deliveryJobs.length ≤ 1 := by
  refine ⟨rfl, ?_, ?_, ?_⟩ <;> unfold create_reminder <;> split <;> simp_all

theorem remind_before_ignored_witness :
    create_reminder (fun _ => 0) "c" "t" "in 5 minutes" 99 0
      = create_reminder (fun _ => 0) "c" "t" "in 5 minutes" 0 0
    ∧ (⟨"c", "t", 5, 0, false, 0⟩ : Reminder).remind_before = 0
      ∧ (⟨"c", "t", 5, 0, false, 0⟩ : Reminder).is_triggered = false := by
  have h := remind_before_ignored (fun _ => 0) "c" "t" "in 5 minutes" 99 0
  exact ⟨h.1, h.2.1 ⟨"c", "t", 5, 0, false, 0⟩ (by decide)⟩

/-- Claim C2: a delivery-job execution that finds the reminder already
triggered returns the skipped outcome from the lock-guarded check, makes no
notification-channel call, deletes no artifact, writes no flag and leaves the
record unchanged. -/
theorem send_reminder_task_skips_delivered (r : Reminder) (before : Bool)
    (env : DeliverEnv) (hfound : env.found = true) (h : r.is_triggered = true) :
    deliverStep r before env
      = (r, ⟨.skippedAlreadyTriggered before, none, Effects.zero, false⟩) := by
  obtain ⟨cid, title, t, ca, flag, rb⟩ := r
  simp only at h
  subst h
  unfold deliverStep send_reminder_task
  simp [hfound]

theorem send_reminder_task_skips_delivered_witness :
    deliverStep ⟨"c", "t", 0, 0, true, 0⟩ false ⟨true, true, true, true, 0⟩
      = (⟨"c", "t", 0, 0, true, 0⟩,
         ⟨.skippedAlreadyTriggered false, none, Effects.zero, false⟩) :=
  send_reminder_task_skips_delivered ⟨"c", "t", 0, 0, true, 0⟩ false
    ⟨true, true, true, true, 0⟩ rfl rfl

/-- Claim C5: in a delivery-job execution the audio artifact is deleted only
when this execution's conditional update (`filter(is_triggered=False).update`)
actually wrote the flag; when the conditional update loses (the flag was
already set at CAS time) cleanup is skipped; and once the flag is written a
failure of the deletion itself (`deleteOk = false`) never resets it. -/
theorem cleanup_after_cas (flagAtLock flagAtCas before : Bool)
    (env : DeliverEnv) (r : Reminder) :
    ((send_reminder_task flagAtLock flagAtCas before env).effects.audioDeleted = true →
      (send_reminder_task flagAtLock flagAtCas before env).casWrote = true)
    ∧ ((send_reminder_task flagAtLock flagAtCas before env).casWrote = false →
      (send_reminder_task flagAtLock flagAtCas before env).effects.audioDeleted = false)
    ∧ (flagAtCas = true →
      (send_reminder_task flagAtLock flagAtCas before env).effects.audioDeleted = false)
    ∧ ((deliverStep r before env).2.casWrote = true →
      (deliverStep r before env).1.is_triggered = true) := by
  unfold deliverStep send_reminder_task
  split_ifs <;> simp_all [Effects.zero]

theorem cleanup_after_cas_witness :
    ((send_reminder_task false true false ⟨true, true, true, false, 0⟩).casWrote = false
      → (send_reminder_task false true false
          ⟨true, true, true, false, 0⟩).effects.audioDeleted = false)
    ∧ ((deliverStep ⟨"c", "t", 0, 0, false, 0⟩ false
          ⟨true, true, true, false, 0⟩).2.casWrote = true
      → (deliverStep ⟨"c", "t", 0, 0, false, 0⟩ false
          ⟨true, true, true, false, 0⟩).1.is_triggered = true) :=
  ⟨(cleanup_after_cas false true false ⟨true, true, true, false, 0⟩
      ⟨"c", "t", 0, 0, false, 0⟩).2.1,
   (cleanup_after_cas false true false ⟨true, true, true, false, 0⟩
      ⟨"c", "t", 0, 0, false, 0⟩).2.2.2⟩

/-- Claim C4 counterexample: a pending reminder whose Twilio call fails
(`twilioOk = false`) is *not* retried — `send_call_reminder` swallows the
failure into a returned error string, so the task completes with a success
status, marks the reminder delivered and even deletes the artifact.  The
claim's retried-then-failed-while-pending behaviour does not happen. -/
theorem call_failure_still_marks_delivered :
    ((deliverStep ⟨"c", "t", 0, 0, false, 0⟩ false
        ⟨true, false, true, true, 0⟩).2.status = .success false true)
    ∧ ((deliverStep ⟨"c", "t", 0, 0, false, 0⟩ false
        ⟨true, false, true, true, 0⟩).1.is_triggered = true)
    ∧ ((deliverStep ⟨"c", "t", 0, 0, false, 0⟩ false
        ⟨true, false, true, true, 0⟩).2.callResult
          = some (send_call_reminder false)) := by
  refine ⟨by decide, by decide, by decide⟩

/-- Claim C4 as amended: only an exception raised in the task body (modelled:
the reminder row is not found) triggers the retry path, with countdown
`2 ^ retries` — doubling per attempt — while `retries < max_retries = 3`, and
a failed result with the store untouched once the ceiling is exhausted.  The
notification-channel outcome, by contrast, never changes the task's status,
conditional update or final state, because `send_call_reminder` returns its
failure as a string. -/
theorem retry_only_on_task_exception (r : Reminder) (before : Bool)
    (env : DeliverEnv) :
    (env.found = false →
      ((deliverStep r before env).2.status
          = (if env.retries < maxRetries
             then .retryWithCountdown (2 ^ env.retries) else .failed))
      ∧ (deliverStep r before env).1 = r
      ∧ (deliverStep r before env).2.effects = Effects.zero)
    ∧ ((deliverStep r before env).2.status
        = (deliverStep r before { env with twilioOk := true }).2.status
      ∧ (deliverStep r before env).2.casWrote
        = (deliverStep r before { env with twilioOk := true }).2.casWrote
      ∧ (deliverStep r before env).1
        = (deliverStep r before { env with twilioOk := true }).1) := by
  unfold deliverStep send_reminder_task
  constructor
  · intro hf
    split_ifs <;> simp_all
  · split_ifs <;> simp_all

theorem retry_only_on_task_exception_witness :
    ((deliverStep ⟨"c", "t", 0, 0, false, 0⟩ false
        ⟨false, true, true, true, 3⟩).2.status = .failed)
    ∧ (deliverStep ⟨"c", "t", 0, 0, false, 0⟩ false
        ⟨false, true, true, true, 3⟩).1 = ⟨"c", "t", 0, 0, false, 0⟩
    ∧ ((deliverStep ⟨"c", "t", 0, 0, false, 0⟩ false
        ⟨false, true, true, true, 1⟩).2.status = .retryWithCountdown 2) := by
  have h3 := (retry_only_on_task_exception ⟨"c", "t", 0, 0, false, 0⟩ false
    ⟨false, true, true, true, 3⟩).1 rfl
  have h1 := (retry_only_on_task_exception ⟨"c", "t", 0, 0, false, 0⟩ false
    ⟨false, true, true, true, 1⟩).1 rfl
  refine ⟨?_, h3.2.1, ?_⟩
  · simpa using h3.1
  · simpa using h1.1

/-- Claim C6 counterexample: `update_reminder` applied to a reminder whose
delivered flag is already `true` does *not* leave the stored record unchanged —
a title update goes through. -/
theorem update_ignores_delivered_counterexample :
    update_reminder_stored (fun _ => 0) ⟨"c", "old", 5, 0, true, 0⟩
        (some "new") none 0
      = ⟨"c", "new", 5, 0, true, 0⟩
    ∧ (⟨"c", "new", 5, 0, true, 0⟩ : Reminder) ≠ ⟨"c", "old", 5, 0, true, 0⟩ := by
  refine ⟨by decide, by decide⟩

/-- Claim C6 as amended: `update_reminder` never consults the delivered flag.
Title and scheduled time are updated identically whether `is_triggered` is
`false` or `true`, and the flag itself is preserved — mutability is not
restricted to undelivered reminders. -/
theorem update_independent_of_delivered (isoVal : String → Int) (r : Reminder)
    (nt nti : Option String) (now : Int) (b : Bool) :
    (update_reminder_stored isoVal r nt nti now).is_triggered = r.is_triggered
    ∧ update_reminder_stored isoVal { r with is_triggered := b } nt nti now
        = { update_reminder_stored isoVal r nt nti now with is_triggered := b } := by
  unfold update_reminder_stored update_reminder
  by_cases ht : pyTruthy nti = true
  · cases hp : parse_reminder_time isoVal (nti.getD "") now <;>
      by_cases hn : pyTruthy nt = true <;>
      simp [ht, hn, hp]
  · rw [Bool.not_eq_true] at ht
    by_cases hn : pyTruthy nt = true
    · simp [ht, hn]
    · rw [Bool.not_eq_true] at hn
      simp [ht, hn]

/-- Claim C3 counterexample: for a concrete pending, due reminder the
per-reminder action of the periodic sweep is not the delivery entry point of
`send_reminder_task` — the sweep sends one Telegram message, no channel call
and no artifact cleanup, while the delivery job places a call and deletes the
artifact. -/
theorem sweep_not_delivery_entry_counterexample :
    (check_due_reminders_step 0 true ⟨"c", "t", 0, 0, false, 0⟩).2
      ≠ ((deliverStep ⟨"c", "t", 0, 0, false, 0⟩ false
          ⟨true, true, true, true, 0⟩).2).effects := by
  decide

/-- Claim C3 as amended: for every reminder that is not delivered and whose
scheduled time is within the one-minute lookahead, the periodic sweep does not
invoke the `send_reminder_task` entry point: it sends exactly one Telegram
message directly (no notification-channel call, no artifact deletion) and,
exactly when that send succeeds, sets `is_triggered` with a plain save. -/
theorem sweep_sends_telegram_directly (r : Reminder) (now : Int) (sendOk : Bool)
    (h1 : r.is_triggered = false) (h2 : r.time ≤ now + 1) :
    (check_due_reminders_step now sendOk r).2 = ⟨0, 1, false⟩
    ∧ (check_due_reminders_step now sendOk r).1
        = { r with is_triggered := r.is_triggered || sendOk } := by
  obtain ⟨cid, title, t, ca, flag, rb⟩ := r
  simp only at h1 h2
  subst h1
  unfold check_due_reminders_step
  simp only [Bool.not_false, Bool.true_and, Bool.false_or]
  rw [if_pos (by exact decide_eq_true h2)]
  cases sendOk <;> simp

theorem sweep_sends_telegram_directly_witness :
    (check_due_reminders_step 9 true ⟨"c", "t", 10, 0, false, 0⟩).2 = ⟨0, 1, false⟩
    ∧ (check_due_reminders_step 9 true ⟨"c", "t", 10, 0, false, 0⟩).1
        = ⟨"c", "t", 10, 0, true, 0⟩ := by
  have h := sweep_sends_telegram_directly ⟨"c", "t", 10, 0, false, 0⟩ 9 true rfl
    (by decide)
  simpa using h

/-- Claim C1: `is_triggered` is monotonic.  Along any trace of core operations
(`update_reminder`, `send_reminder_task`, the `check_due_reminders` step) a
reminder that is triggered stays triggered, the `false → true` transition
happens at most once per trace, every single operation preserves a set flag,
and `create_reminder` always persists the flag as `false`. -/
theorem is_triggered_monotonic (isoVal : String → Int) (r : Reminder)
    (ops : List CoreOp) :
    (r.is_triggered = true → (ops.foldl (applyOp isoVal) r).is_triggered = true)
    ∧ countTransitions isoVal r ops ≤ 1
    ∧ (∀ op, r.is_triggered = true → (applyOp isoVal r op).is_triggered = true)
    ∧ (∀ cid title tiso rb now r0,
        (create_reminder isoVal cid title tiso rb now).stored = some r0 →
        r0.is_triggered = false) := by
  refine ⟨foldl_flag_mono isoVal ops r, countTransitions_le_one isoVal ops r,
    fun op h => applyOp_mono isoVal r op h, ?_⟩
  intro cid title tiso rb now r0 h
  unfold create_reminder at h
  split at h
  · simp only [Option.some.injEq] at h
    subst h
    rfl
  · cases h

theorem is_triggered_monotonic_witness :
    (([CoreOp.sweep 0 true, CoreOp.deliver false ⟨true, true, true, true, 0⟩,
        CoreOp.update (some "x") none 0].foldl (applyOp (fun _ => 0))
        ⟨"c", "t", 0, 0, true, 0⟩).is_triggered = true)
    ∧ countTransitions (fun _ => 0) ⟨"c", "t", 0, 0, true, 0⟩
        [CoreOp.sweep 0 true, CoreOp.deliver false ⟨true, true, true, true, 0⟩,
         CoreOp.update (some "x") none 0] ≤ 1
    ∧ (⟨"c", "t", 60, 0, false, 0⟩ : Reminder).is_triggered = false := by
  have h := is_triggered_monotonic (fun _ => 0) ⟨"c", "t", 0, 0, true, 0⟩
    [CoreOp.sweep 0 true, CoreOp.deliver false ⟨true, true, true, true, 0⟩,
     CoreOp.update (some "x") none 0]
  exact ⟨h.1 rfl, h.2.1,
    h.2.2.2 "c" "t" "in 1 hours" 0 0 ⟨"c", "t", 60, 0, false, 0⟩ (by decide)⟩

end Jakesbot
